import Mathlib

/-!
Shallow embedding of `src/types/BaseType.cpp` from UWQuickstep/gift.

The source defines an abstract class `GiftedBaseType` (type identifier,
factory `Clone`, `UnMarshall` decoding, primitive comparators `Equal` /
`LessThan`, derived comparators, `AddToLeft`, and a default
`VectorizedEqual` loop) and one concrete subclass `GiftedIntegerType`
holding a `std::uint64_t _value`.

Modelling choices:
* `_value` is a `Nat`; overflow is explicit `% 2 ^ 64` where the source
  performs `uint64_t` arithmetic.
* A raw byte buffer handed to `UnMarshall` is a pointer into memory,
  modelled as a function `Nat → Nat` from byte offsets to byte values
  (reduced `% 256` at each read); the `length` argument is carried
  separately exactly as in the source, which never consults it.
* The host byte order used by `reinterpret_cast<const uint64_t*>` is
  fixed to little-endian.
* Output-by-reference parameters (`bool &result`) become an explicit
  incoming value plus the returned new value, so "the callee returned
  without writing" is modelled as returning the incoming value.
-/

/-- The `GiftedTypeId` enumeration: `_GiftedUnknownTypeId = -1` and
`_GiftedIntTypeId`. The leading underscores of the source names are
dropped. -/
inductive GiftedTypeId
  | GiftedUnknownTypeId
  | GiftedIntTypeId
  deriving DecidableEq

/-- A dynamic `GiftedBaseType*` operand. `giftedInteger value` is a
`GiftedIntegerType` instance with `_value = value`. `giftedOther` stands
for an instance of any subclass whose `myType()` is not
`_GiftedIntTypeId` (the base-class default returns
`_GiftedUnknownTypeId`); the integer variant's operations inspect such
an operand only through `myType()`, so no further data is needed. -/
inductive GiftedBaseType
  | giftedInteger (value : Nat)
  | giftedOther
  deriving DecidableEq

/-- `myType()`: `GiftedIntegerType` overrides it to `_GiftedIntTypeId`;
the base default returns `_GiftedUnknownTypeId`. -/
def GiftedBaseType.myType : GiftedBaseType → GiftedTypeId
  | .giftedInteger _ => .GiftedIntTypeId
  | .giftedOther => .GiftedUnknownTypeId

/-- `*reinterpret_cast<const std::uint64_t*>(payload)`: read the eight
bytes at the pointer, little-endian, into an unsigned 64-bit value. -/
def readUInt64 (mem : Nat → Nat) : Nat :=
  mem 0 % 256 + mem 1 % 256 * 256 + mem 2 % 256 * 256 ^ 2 +
    mem 3 % 256 * 256 ^ 3 + mem 4 % 256 * 256 ^ 4 + mem 5 % 256 * 256 ^ 5 +
    mem 6 % 256 * 256 ^ 6 + mem 7 % 256 * 256 ^ 7

/-- The little-endian byte image of a value, used to build concrete
buffers in statements (the source has no marshalling direction). -/
def toBytesLE (v : Nat) : Nat → Nat := fun b => v / 256 ^ b % 256

namespace GiftedIntegerType

/-- `GiftedIntegerType::getLength()` returns `sizeof(std::uint64_t)`. -/
def getLength : Nat := 8

/-- `GiftedIntegerType::UnMarshall(payload, length)` sets
`_value = *reinterpret_cast<const std::uint64_t*>(payload)`; the
`length` argument is never read. Returns the new `_value`. -/
def UnMarshall (payload : Nat → Nat) (_length : Nat) : Nat :=
  readUInt64 payload

/-- `GiftedIntegerType::Equal(right, result)`: if `right->myType()` is
`_GiftedIntTypeId`, write `_value == right->_value` into `result`,
else return without writing. `self` is the receiver's `_value`,
`result` the incoming contents of the output parameter. -/
def Equal (self : Nat) (right : GiftedBaseType) (result : Bool) : Bool :=
  match right with
  | .giftedInteger v => decide (self = v)
  | .giftedOther => result

/-- `GiftedIntegerType::LessThan(right, result)`: analogous to `Equal`
with `<`. -/
def LessThan (self : Nat) (right : GiftedBaseType) (result : Bool) : Bool :=
  match right with
  | .giftedInteger v => decide (self < v)
  | .giftedOther => result

/-- `GiftedBaseType::NotEqual` (base default, as dispatched for an
integer receiver): call `Equal`, then flip `result`. -/
def NotEqual (self : Nat) (right : GiftedBaseType) (result : Bool) : Bool :=
  ! Equal self right result

/-- `GiftedBaseType::LessThanOrEqual` (base default): call `LessThan`;
if `result` is then false, fall through to `Equal`. -/
def LessThanOrEqual (self : Nat) (right : GiftedBaseType) (result : Bool) : Bool :=
  let r := LessThan self right result
  if !r then Equal self right r else r

/-- `GiftedBaseType::GreaterThan` (base default): `LessThanOrEqual`,
then flip `result`. -/
def GreaterThan (self : Nat) (right : GiftedBaseType) (result : Bool) : Bool :=
  ! LessThanOrEqual self right result

/-- `GiftedBaseType::GreaterThanOrEqual` (base default): `LessThan`,
then flip `result`. -/
def GreaterThanOrEqual (self : Nat) (right : GiftedBaseType) (result : Bool) : Bool :=
  ! LessThan self right result

/-- `GiftedIntegerType::AddToLeft(right)`: if the identifiers match,
`_value += right->_value` in `uint64_t` arithmetic, else return without
touching `_value`. Returns the receiver's new `_value`; `right` is a
`const` pointer and is never written. -/
def AddToLeft (self : Nat) (right : GiftedBaseType) : Nat :=
  match right with
  | .giftedInteger v => (self + v) % 2 ^ 64
  | .giftedOther => self

/-- `GiftedIntegerType::Clone()` returns `new GiftedIntegerType`, whose
constructor initialises `_value(0)`; the receiver's value is ignored. -/
def Clone (_self : Nat) : GiftedBaseType :=
  .giftedInteger 0

/-- `GiftedBaseType::VectorizedEqual` as it executes for an integer
receiver: both scratch instances come from `Clone()` (integer, value 0);
the literal is unmarshalled once; each iteration unmarshals the slice at
`vectorDataElements + i * elementLength` into the caller scratch and
calls `Equal` against the literal, writing `result[i]`. `result0 i` is
the incoming contents of `result[i]` (uninitialised in the driver); the
returned list holds the first `vectorLength` slots after the loop. -/
def VectorizedEqual (elementLength : Nat) (vectorDataElements : Nat → Nat)
    (vectorLength : Nat) (rawLiteralData : Nat → Nat)
    (result0 : Nat → Bool) : List Bool :=
  let lit := UnMarshall rawLiteralData elementLength
  (List.range vectorLength).map fun i =>
    Equal (UnMarshall (fun j => vectorDataElements (i * elementLength + j)) elementLength)
      (GiftedBaseType.giftedInteger lit) (result0 i)

end GiftedIntegerType

/-- The 1024-element disk vector `_onDiskB` of the driver's scenario B:
element `i` holds `i` when `i` is odd and `i * 2` when even, stored as
eight little-endian bytes at offset `8 * i`. -/
def scenarioBVector : Nat → Nat := fun addr =>
  toBytesLE (if addr / 8 % 2 = 1 then addr / 8 else addr / 8 * 2) (addr % 8)

/-- C3: for same-identifier integer operands, the derived comparators
satisfy `notEquals = !equals`, `lessThanOrEquals = lessThan || equals`,
`greaterThan = !lessThanOrEquals`, `greaterThanOrEquals = !lessThan`,
whatever the incoming contents of the output parameter. -/
theorem derived_comparators_consistent (a b : Nat) (r : Bool) :
    GiftedIntegerType.NotEqual a (.giftedInteger b) r
        = ! GiftedIntegerType.Equal a (.giftedInteger b) r ∧
      GiftedIntegerType.LessThanOrEqual a (.giftedInteger b) r
        = (GiftedIntegerType.LessThan a (.giftedInteger b) r
            || GiftedIntegerType.Equal a (.giftedInteger b) r) ∧
      GiftedIntegerType.GreaterThan a (.giftedInteger b) r
        = ! GiftedIntegerType.LessThanOrEqual a (.giftedInteger b) r ∧
      GiftedIntegerType.GreaterThanOrEqual a (.giftedInteger b) r
        = ! GiftedIntegerType.LessThan a (.giftedInteger b) r := by
  refine ⟨rfl, ?_, rfl, rfl⟩
  by_cases h : a < b <;>
    simp [GiftedIntegerType.LessThanOrEqual, GiftedIntegerType.LessThan,
      GiftedIntegerType.Equal, h]

/-- C4: `Clone` on an integer instance yields an instance of the same
type identifier whose value is the default 0, regardless of the
receiver's value; when the receiver's value is nonzero the product is
not a value copy of it. -/
theorem clone_is_default_factory (v : Nat) :
    (GiftedIntegerType.Clone v).myType = (GiftedBaseType.giftedInteger v).myType ∧
      GiftedIntegerType.Clone v = .giftedInteger 0 ∧
      (v ≠ 0 → GiftedIntegerType.Clone v ≠ .giftedInteger v) := by
  refine ⟨rfl, rfl, fun hv h => hv ?_⟩
  cases h
  rfl

/-- Witness for C4 at `v = 5`. -/
theorem clone_is_default_factory_witness :
    GiftedIntegerType.Clone 5 ≠ GiftedBaseType.giftedInteger 5 :=
  (clone_is_default_factory 5).2.2 (by decide)

/-- C10: with a right operand whose type identifier differs, the
derived comparators `NotEqual`, `GreaterThan` and `GreaterThanOrEqual`
do not leave the output parameter unchanged: each writes the negation
of the value it held on entry, which always differs from that value. -/
theorem derived_comparators_flip_on_mismatch (self : Nat) (r0 : Bool) :
    GiftedIntegerType.NotEqual self .giftedOther r0 = !r0 ∧
      GiftedIntegerType.GreaterThan self .giftedOther r0 = !r0 ∧
      GiftedIntegerType.GreaterThanOrEqual self .giftedOther r0 = !r0 ∧
      !r0 ≠ r0 := by
  cases r0 <;> exact ⟨rfl, rfl, rfl, by decide⟩

/-- C1: the default `VectorizedEqual` produces a boolean list of length
`vectorLength`; an empty input yields the empty list; and slot `i`
holds exactly what `Equal` writes when comparing the value unmarshalled
from bytes `[i*w, (i+1)*w)` of the buffer with the unmarshalled
literal, for every `i` in range and whatever the slots held before. -/
theorem vectorizedEqual_correct (w : Nat) (vd : Nat → Nat) (n : Nat)
    (ld : Nat → Nat) (r0 : Nat → Bool) :
    (GiftedIntegerType.VectorizedEqual w vd n ld r0).length = n ∧
      (n = 0 → GiftedIntegerType.VectorizedEqual w vd n ld r0 = []) ∧
      ∀ i, i < n →
        (GiftedIntegerType.VectorizedEqual w vd n ld r0).getD i false =
          GiftedIntegerType.Equal
            (GiftedIntegerType.UnMarshall (fun j => vd (i * w + j)) w)
            (GiftedBaseType.giftedInteger (GiftedIntegerType.UnMarshall ld w))
            (r0 i) := by
  refine ⟨by simp [GiftedIntegerType.VectorizedEqual], ?_, ?_⟩
  · rintro rfl
    simp [GiftedIntegerType.VectorizedEqual]
  · intro i hi
    simp [GiftedIntegerType.VectorizedEqual, List.getD_eq_getElem?_getD,
      List.getElem?_map, List.getElem?_range hi]

/-- Witness for C1: the third conjunct at a concrete call comparing a
one-element vector holding 5 against the literal 5. -/
theorem vectorizedEqual_correct_witness :
    (GiftedIntegerType.VectorizedEqual 8 (toBytesLE 5) 1 (toBytesLE 5)
        (fun _ => false)).getD 0 false =
      GiftedIntegerType.Equal
        (GiftedIntegerType.UnMarshall (fun j => toBytesLE 5 (0 * 8 + j)) 8)
        (GiftedBaseType.giftedInteger (GiftedIntegerType.UnMarshall (toBytesLE 5) 8))
        false :=
  (vectorizedEqual_correct 8 (toBytesLE 5) 1 (toBytesLE 5) (fun _ => false)).2.2
    0 (by decide)

/-- C2 counterexample: two of the operations the claim covers do not
behave as it states. `NotEqual` against a mismatched operand with the
output slot holding `false` writes `true` (the slot is not left
unchanged), and `UnMarshall` on a fresh instance (`_value = 0`) with a
declared buffer length 16 ≠ 8 still overwrites `_value` with the eight
bytes at the pointer (here 7), so the receiver's state is not left
unchanged either. -/
theorem mismatch_silently_ignored_counterexample :
    GiftedIntegerType.NotEqual 0 GiftedBaseType.giftedOther false = true ∧
      GiftedBaseType.giftedInteger (GiftedIntegerType.UnMarshall (toBytesLE 7) 16) ≠
        GiftedBaseType.giftedInteger 0 ∧
      (16 : Nat) ≠ GiftedIntegerType.getLength := by
  refine ⟨rfl, by decide, by decide⟩

/-- C2 amended: on a type-identifier mismatch the primitive comparators
`Equal` and `LessThan`, and also `LessThanOrEqual`, return with the
output parameter unchanged, and `AddToLeft` leaves the receiver's value
unchanged (the derived `NotEqual`, `GreaterThan`, `GreaterThanOrEqual`
instead negate the output slot); `UnMarshall` ignores the supplied
length entirely and always overwrites `_value` with the eight bytes at
the payload pointer. No operation signals an error. -/
theorem mismatch_silently_ignored (self : Nat) (r0 : Bool)
    (mem : Nat → Nat) (len : Nat) :
    GiftedIntegerType.Equal self .giftedOther r0 = r0 ∧
      GiftedIntegerType.LessThan self .giftedOther r0 = r0 ∧
      GiftedIntegerType.LessThanOrEqual self .giftedOther r0 = r0 ∧
      GiftedIntegerType.AddToLeft self .giftedOther = self ∧
      GiftedIntegerType.UnMarshall mem len = readUInt64 mem := by
  refine ⟨rfl, rfl, ?_, rfl, rfl⟩
  cases r0 <;> rfl

/-- C5, scenario A: with `X` and `Y` unmarshalled from 8-byte buffers
holding 13 and 26, the six comparators give `false, true, true, true,
false, false` regardless of the output slot's prior contents, and
`AddToLeft` leaves `X` at 39. -/
theorem scenario_A (r : Bool) :
    GiftedIntegerType.Equal (GiftedIntegerType.UnMarshall (toBytesLE 13) 8)
        (.giftedInteger (GiftedIntegerType.UnMarshall (toBytesLE 26) 8)) r = false ∧
      GiftedIntegerType.LessThan (GiftedIntegerType.UnMarshall (toBytesLE 13) 8)
        (.giftedInteger (GiftedIntegerType.UnMarshall (toBytesLE 26) 8)) r = true ∧
      GiftedIntegerType.NotEqual (GiftedIntegerType.UnMarshall (toBytesLE 13) 8)
        (.giftedInteger (GiftedIntegerType.UnMarshall (toBytesLE 26) 8)) r = true ∧
      GiftedIntegerType.LessThanOrEqual (GiftedIntegerType.UnMarshall (toBytesLE 13) 8)
        (.giftedInteger (GiftedIntegerType.UnMarshall (toBytesLE 26) 8)) r = true ∧
      GiftedIntegerType.GreaterThan (GiftedIntegerType.UnMarshall (toBytesLE 13) 8)
        (.giftedInteger (GiftedIntegerType.UnMarshall (toBytesLE 26) 8)) r = false ∧
      GiftedIntegerType.GreaterThanOrEqual (GiftedIntegerType.UnMarshall (toBytesLE 13) 8)
        (.giftedInteger (GiftedIntegerType.UnMarshall (toBytesLE 26) 8)) r = false ∧
      GiftedIntegerType.AddToLeft (GiftedIntegerType.UnMarshall (toBytesLE 13) 8)
        (.giftedInteger (GiftedIntegerType.UnMarshall (toBytesLE 26) 8)) = 39 := by
  cases r <;> decide

/-- C7: for integer operands within `uint64_t` range, `AddToLeft` is
wrapping addition: the receiver's new value is the sum modulo `2 ^ 64`
and stays in range (the `const` right operand is untouched by
construction in this embedding). -/
theorem addToLeft_wraps (a b : Nat) (_ha : a < 2 ^ 64) (_hb : b < 2 ^ 64) :
    GiftedIntegerType.AddToLeft a (.giftedInteger b) = (a + b) % 2 ^ 64 ∧
      GiftedIntegerType.AddToLeft a (.giftedInteger b) < 2 ^ 64 :=
  ⟨rfl, Nat.mod_lt _ (by positivity)⟩

/-- Witness for C7 at the wrap-around point `a = 2 ^ 64 - 1`, `b = 2`. -/
theorem addToLeft_wraps_witness :
    GiftedIntegerType.AddToLeft (2 ^ 64 - 1) (.giftedInteger 2)
        = (2 ^ 64 - 1 + 2) % 2 ^ 64 ∧
      GiftedIntegerType.AddToLeft (2 ^ 64 - 1) (.giftedInteger 2) < 2 ^ 64 :=
  addToLeft_wraps (2 ^ 64 - 1) 2 (by norm_num) (by norm_num)

/-- C8: the integer variant's encoded width is the constant 8 bytes;
`UnMarshall` reads the buffer's bytes in (little-endian) host order as
an unsigned 64-bit integer, so any value in range round-trips through
its byte image and every unmarshalled value is in `uint64_t` range. -/
theorem encoding_fixed_width (v : Nat) (hv : v < 2 ^ 64) :
    GiftedIntegerType.getLength = 8 ∧
      GiftedIntegerType.UnMarshall (toBytesLE v) 8 = v ∧
      ∀ mem len, GiftedIntegerType.UnMarshall mem len < 2 ^ 64 := by
  refine ⟨rfl, ?_, ?_⟩
  · simp only [GiftedIntegerType.UnMarshall, readUInt64, toBytesLE]
    omega
  · intro mem len
    simp only [GiftedIntegerType.UnMarshall, readUInt64]
    have h0 : mem 0 % 256 < 256 := Nat.mod_lt _ (by norm_num)
    have h1 : mem 1 % 256 < 256 := Nat.mod_lt _ (by norm_num)
    have h2 : mem 2 % 256 < 256 := Nat.mod_lt _ (by norm_num)
    have h3 : mem 3 % 256 < 256 := Nat.mod_lt _ (by norm_num)
    have h4 : mem 4 % 256 < 256 := Nat.mod_lt _ (by norm_num)
    have h5 : mem 5 % 256 < 256 := Nat.mod_lt _ (by norm_num)
    have h6 : mem 6 % 256 < 256 := Nat.mod_lt _ (by norm_num)
    have h7 : mem 7 % 256 < 256 := Nat.mod_lt _ (by norm_num)
    omega

/-- Witness for C8 at `v = 13`. -/
theorem encoding_fixed_width_witness :
    GiftedIntegerType.getLength = 8 ∧
      GiftedIntegerType.UnMarshall (toBytesLE 13) 8 = 13 ∧
      ∀ mem len, GiftedIntegerType.UnMarshall mem len < 2 ^ 64 :=
  encoding_fixed_width 13 (by norm_num)

/-- C9: for the integer variant, `Equal` is reflexive and symmetric and
`LessThan` is transitive, independently of the output slots' prior
contents. -/
theorem equal_refl_symm_lessThan_trans (a b c : Nat) (r1 r2 r3 : Bool) :
    GiftedIntegerType.Equal a (.giftedInteger a) r1 = true ∧
      GiftedIntegerType.Equal a (.giftedInteger b) r1
        = GiftedIntegerType.Equal b (.giftedInteger a) r2 ∧
      (GiftedIntegerType.LessThan a (.giftedInteger b) r1 = true →
        GiftedIntegerType.LessThan b (.giftedInteger c) r2 = true →
        GiftedIntegerType.LessThan a (.giftedInteger c) r3 = true) := by
  refine ⟨by simp [GiftedIntegerType.Equal], ?_, ?_⟩
  · simp only [GiftedIntegerType.Equal]
    exact decide_eq_decide.mpr eq_comm
  · simp only [GiftedIntegerType.LessThan, decide_eq_true_eq]
    omega

/-- Witness for C9's transitivity clause at `1 < 2 < 3`. -/
theorem equal_refl_symm_lessThan_trans_witness :
    GiftedIntegerType.LessThan 1 (.giftedInteger 3) true = true :=
  (equal_refl_symm_lessThan_trans 1 2 3 false false true).2.2
    (by decide) (by decide)

set_option maxRecDepth 100000 in
set_option maxHeartbeats 4000000 in
/-- C6, scenario B: running the default `VectorizedEqual` with element
width 8 over the 1024-element vector whose element `i` encodes `i` when
`i` is odd and `i * 2` when even, against a literal encoding 13, yields
`true` at index 13 and `false` at every other index, whatever the
result array held before. -/
theorem scenario_B (r0 : Nat → Bool) :
    GiftedIntegerType.VectorizedEqual 8 scenarioBVector 1024 (toBytesLE 13) r0 =
      (List.range 1024).map fun i => decide (i = 13) := by
  have h : GiftedIntegerType.VectorizedEqual 8 scenarioBVector 1024 (toBytesLE 13) r0 =
      (List.range 1024).map fun i =>
        decide (GiftedIntegerType.UnMarshall (fun j => scenarioBVector (i * 8 + j)) 8 =
          GiftedIntegerType.UnMarshall (toBytesLE 13) 8) := rfl
  rw [h]
  decide
